import Mathlib

/-
Verification of the crossfiledialog repository: the backend selector
(crossfiledialog/__init__.py) and the kdialog subprocess backend
(whines_crossfiledialog/file_pickers/kdialog.py), shallowly embedded.
Python strings are Lean Strings; Python `Optional` is `Option`; the
outcome of the external process is an explicit `ProcOutcome` value.
-/

namespace CrossFileDialog

/-- Python whitespace characters stripped by str.strip(). -/
def isPySpace (c : Char) : Bool :=
  c = ' ' || c = '\t' || c = '\n' || c = '\r' || c = '\x0b' || c = '\x0c'

/-- Python str.strip(): drop leading and trailing whitespace. -/
def pyStrip (s : String) : String :=
  String.mk (((s.data.dropWhile isPySpace).reverse.dropWhile isPySpace).reverse)

/-- Auxiliary for pySplitNewline: accumulate the current field (reversed). -/
def splitNewlineAux : List Char → List Char → List String
  | [], acc => [String.mk acc.reverse]
  | c :: rest, acc =>
      if c = '\n' then String.mk acc.reverse :: splitNewlineAux rest []
      else splitNewlineAux rest (c :: acc)

/-- Python s.split("\n"): split on every newline; the empty string gives [""]. -/
def pySplitNewline (s : String) : List String :=
  splitNewlineAux s.data []

/-- Python os.path.dirname for POSIX paths: everything up to the last slash,
with trailing slashes stripped unless the head is all slashes. -/
def posixDirname (p : String) : String :=
  let cs := p.data
  let head := (cs.reverse.dropWhile (fun c => c ≠ '/')).reverse
  let head2 :=
    if head ≠ [] ∧ head.any (fun c => c ≠ '/') then
      (head.reverse.dropWhile (fun c => c = '/')).reverse
    else head
  String.mk head2

/-! ## Backend selector (crossfiledialog/__init__.py) -/

/-- The concrete FileDialog classes the selector can hand back. -/
inductive Backend where
  | kdialog
  | pygobject
  | qt
  | zenity
  | win32
deriving DecidableEq, Repr

/-- NoImplementationFoundException from crossfiledialog.exceptions. -/
inductive SelectError where
  | noImplementationFound
deriving DecidableEq, Repr

/-- sys.platform values the selector distinguishes. -/
inductive Platform where
  | linux
  | win32
  | other
deriving DecidableEq, Repr

/-- Module-level default: ["kdialog", "pygobject", "qt", "zenity"]. -/
def default_picker_preferences : List String :=
  ["kdialog", "pygobject", "qt", "zenity"]

/-- The for-loop body of file_dialog on Linux: scan the preference list in
order; kdialog and zenity require their binary to have been found by which(),
pygobject and qt are returned without any check; fall off the end raises
NoImplementationFoundException. `kdialog_binary`/`zenity_binary` are the
truthiness of the which() results. -/
def picker_scan (kdialog_binary zenity_binary : Bool) :
    List String → Except SelectError Backend
  | [] => .error .noImplementationFound
  | picker :: rest =>
      if picker == "kdialog" && kdialog_binary then .ok .kdialog
      else if picker == "pygobject" then .ok .pygobject
      else if picker == "qt" then .ok .qt
      else if picker == "zenity" && zenity_binary then .ok .zenity
      else picker_scan kdialog_binary zenity_binary rest

/-- Python `picker_preference if picker_preference else default_picker_preferences`:
None and the empty list are both falsy. -/
def effective_preferences (picker_preference : Option (List String)) : List String :=
  match picker_preference with
  | some l => if l = [] then default_picker_preferences else l
  | none => default_picker_preferences

/-- file_dialog: on Linux scan the effective preference list; on win32 return
the win32 backend unconditionally; otherwise raise NoImplementationFoundException. -/
def file_dialog (platform : Platform) (picker_preference : Option (List String))
    (kdialog_binary zenity_binary : Bool) : Except SelectError Backend :=
  match platform with
  | .linux => picker_scan kdialog_binary zenity_binary (effective_preferences picker_preference)
  | .win32 => .ok .win32
  | .other => .error .noImplementationFound

/-- The availability test the scan actually applies to one identifier:
kdialog and zenity need their binary, pygobject and qt always pass. -/
def picker_hit (kdialog_binary zenity_binary : Bool) (picker : String) : Bool :=
  (picker == "kdialog" && kdialog_binary) || picker == "pygobject" ||
    picker == "qt" || (picker == "zenity" && zenity_binary)

/-- The Backend value the scan returns for an identifier that hits. -/
def backend_of : String → Backend
  | "pygobject" => .pygobject
  | "qt" => .qt
  | "zenity" => .zenity
  | _ => .kdialog

/-! ## Working-directory memory and subprocess cwd (kdialog.py) -/

/-- get_preferred_cwd: os.environ.get("FILEDIALOG_CWD", "") if truthy, else
the module global last_cwd if truthy, else None. `env_cwd` is the environment
variable (none when unset), `last_cwd` the module global. -/
def get_preferred_cwd (env_cwd last_cwd : Option String) : Option String :=
  let possible_cwd := env_cwd.getD ""
  if possible_cwd ≠ "" then some possible_cwd
  else
    match last_cwd with
    | some s => if s ≠ "" then some s else none
    | none => none

/-- set_last_cwd: last_cwd := os.path.dirname(cwd). -/
def set_last_cwd (cwd : String) : Option String :=
  some (posixDirname cwd)

/-- The cwd run_kdialog hands Popen: get_preferred_cwd, passed only when truthy
(`if preferred_cwd: extra_kwargs["cwd"] = preferred_cwd`); none means the
subprocess inherits the caller's working directory. -/
def run_kdialog_subprocess_cwd (env_cwd last_cwd : Option String) : Option String :=
  match get_preferred_cwd env_cwd last_cwd with
  | some s => if s ≠ "" then some s else none
  | none => none

/-! ## run_kdialog: command list and process outcome -/

/-- A Python dict.pop(key): the value when present, and the dict without it. -/
def assocPop (key : String) (kwargs : List (String × String)) :
    Option String × List (String × String) :=
  match kwargs.find? (fun kv => kv.1 == key) with
  | some kv => (some kv.2, kwargs.filter (fun kv2 => kv2.1 ≠ key))
  | none => (none, kwargs)

/-- The cmdlist run_kdialog builds: "kdialog", then "--arg" for every
positional arg, then a popped start_dir positionally, then a popped filter
positionally, then every remaining kwarg as "--key" value. kwargs is the
insertion-ordered dict as an association list. -/
def run_kdialog_cmdlist (args : List String) (kwargs : List (String × String)) :
    List String :=
  let cmdlist := "kdialog" :: args.map (fun a => "--" ++ a)
  let sd := assocPop "start_dir" kwargs
  let cmdlist := cmdlist ++ (match sd.1 with | some v => [v] | none => [])
  let fl := assocPop "filter" sd.2
  let cmdlist := cmdlist ++ (match fl.1 with | some v => [v] | none => [])
  cmdlist ++ (fl.2.map (fun kv => ["--" ++ kv.1, kv.2])).flatten

/-- What the launched kdialog process did: Popen itself failed, or the process
ran and exited with a returncode and captured stdout/stderr. -/
inductive ProcOutcome where
  | launchFailure
  | exited (returncode : Int) (stdout stderr : String)
deriving DecidableEq, Repr

/-- How a dialog call can fail: the Popen OSError propagating uncaught, or the
KDialogException run_kdialog raises itself. -/
inductive DialogError where
  | osError
  | kdialogException
deriving DecidableEq, Repr

/-- The execute-and-parse tail of run_kdialog: a Popen failure propagates the
OSError; a returncode of exactly -1 raises KDialogException("Unexpected error
during kdialog call"); every other returncode returns stdout.strip(). -/
def run_kdialog_outcome (outcome : ProcOutcome) : Except DialogError String :=
  match outcome with
  | .launchFailure => .error .osError
  | .exited returncode stdout _stderr =>
      if returncode = -1 then .error .kdialogException
      else .ok (pyStrip stdout)

/-! ## The four dialog operations as state transformers on last_cwd -/

/-- The tail of FileDialog.open_file after run_kdialog returned `result`:
`if result: set_last_cwd(result)`; return result. -/
def open_file_step (result : String) (mem : Option String) : String × Option String :=
  if result ≠ "" then (result, set_last_cwd result) else (result, mem)

/-- The tail of FileDialog.save_file: same update rule as open_file. -/
def save_file_step (result : String) (mem : Option String) : String × Option String :=
  if result ≠ "" then (result, set_last_cwd result) else (result, mem)

/-- The tail of FileDialog.choose_folder: same update rule as open_file. -/
def choose_folder_step (result : String) (mem : Option String) : String × Option String :=
  if result ≠ "" then (result, set_last_cwd result) else (result, mem)

/-- The tail of FileDialog.open_multiple:
result_list = list(map(str.strip, result.split("\n")));
if result_list: set_last_cwd(result_list[0]); return result_list; return []. -/
def open_multiple_step (result : String) (mem : Option String) :
    List String × Option String :=
  match (pySplitNewline result).map pyStrip with
  | first :: rest => (first :: rest, set_last_cwd first)
  | [] => ([], mem)

/-- open_file as a whole call: run_kdialog on the process outcome, then the
open_file tail; an exception leaves last_cwd untouched. -/
def open_file_call (outcome : ProcOutcome) (mem : Option String) :
    Except DialogError String × Option String :=
  match run_kdialog_outcome outcome with
  | .error e => (.error e, mem)
  | .ok result =>
      let rm := open_file_step result mem
      (.ok rm.1, rm.2)

/-- save_file as a whole call. -/
def save_file_call (outcome : ProcOutcome) (mem : Option String) :
    Except DialogError String × Option String :=
  match run_kdialog_outcome outcome with
  | .error e => (.error e, mem)
  | .ok result =>
      let rm := save_file_step result mem
      (.ok rm.1, rm.2)

/-- choose_folder as a whole call. -/
def choose_folder_call (outcome : ProcOutcome) (mem : Option String) :
    Except DialogError String × Option String :=
  match run_kdialog_outcome outcome with
  | .error e => (.error e, mem)
  | .ok result =>
      let rm := choose_folder_step result mem
      (.ok rm.1, rm.2)

/-- open_multiple as a whole call. -/
def open_multiple_call (outcome : ProcOutcome) (mem : Option String) :
    Except DialogError (List String) × Option String :=
  match run_kdialog_outcome outcome with
  | .error e => (.error e, mem)
  | .ok result =>
      let rm := open_multiple_step result mem
      (.ok rm.1, rm.2)

/-! ## Filter expression compiler -/

/-- A pattern set attached to one label: a single pattern string or a list. -/
inductive FilterPatterns where
  | single (pattern : String)
  | many (patterns : List String)
deriving DecidableEq, Repr

/-- One entry of a list-shaped filter: a pattern, a pattern list, or a
label-to-pattern mapping. -/
inductive FilterEntry where
  | pattern (p : String)
  | patternList (ps : List String)
  | labeled (m : List (String × String))
deriving DecidableEq, Repr

/-- The three semantic shapes a filter argument can take:
str | list[str | list[str] | dict[str, str]] | dict[str, str | list[str]]. -/
inductive FilterExpr where
  | raw (s : String)
  | entries (es : List FilterEntry)
  | mapping (m : List (String × FilterPatterns))
deriving DecidableEq, Repr

/-- Auxiliary for pyFormat: substitute the positional arguments for the
placeholder pairs in order, copying every other character. -/
def pyFormatAux : List Char → List String → List Char
  | [], _ => []
  | '\x7b' :: '\x7d' :: rest, a :: as => a.data ++ pyFormatAux rest as
  | '\x7b' :: '\x7d' :: rest, [] => '\x7b' :: '\x7d' :: pyFormatAux rest []
  | c :: rest, as => c :: pyFormatAux rest as

/-- Python template.format(*args) restricted to bare positional placeholders. -/
def pyFormat (template : String) (args : List String) : String :=
  String.mk (pyFormatAux template.data args)

/-- Render one pattern set: a single pattern unchanged, a list joined with
pattern_join. -/
def renderPatterns (pattern_join : String) : FilterPatterns → String
  | .single p => p
  | .many ps => String.intercalate pattern_join ps

/-- Render one list entry: patterns joined with pattern_join, a label mapping
rendered through the labeled template and joined with the separator. -/
def renderEntry (pattern_join labeled_template separator : String) :
    FilterEntry → String
  | .pattern p => p
  | .patternList ps => String.intercalate pattern_join ps
  | .labeled m =>
      String.intercalate separator
        (m.map (fun kv => pyFormat labeled_template [kv.1, kv.2]))

/-- Modelled from the spec: whines_crossfiledialog.utils.filter_processor is
not in the sources; section 4.3 of the specification defines it. A raw string
is returned unchanged; a plain pattern or sequence of patterns is joined with
pattern_join; a label-to-patterns mapping renders labeled_template filled with
the label and the joined pattern set; rendered entries are joined with the
separator. -/
def filter_processor (f : FilterExpr) (group_formatters : String × String)
    (separator : String) : String :=
  match f with
  | .raw s => s
  | .entries es =>
      String.intercalate separator
        (es.map (renderEntry group_formatters.1 group_formatters.2 separator))
  | .mapping m =>
      String.intercalate separator
        (m.map (fun kv =>
          pyFormat group_formatters.2 [kv.1, renderPatterns group_formatters.1 kv.2]))

/-- The group formatters every kdialog operation passes:
(" ", "{} ({})") with the braces as placeholder pairs. -/
def kdialog_group_formatters : String × String :=
  (" ", "\x7b\x7d (\x7b\x7d)")

/-- Python truthiness of a filter value: empty string, list and dict are falsy. -/
def FilterExpr.truthy : FilterExpr → Bool
  | .raw s => s ≠ ""
  | .entries es => es ≠ []
  | .mapping m => m ≠ []

/-! ## open_file argument construction -/

/-- The kwargs dict FileDialog.open_file builds, in insertion order: title
first, then start_dir if truthy, then the compiled filter if the filter
argument is truthy. -/
def open_file_kwargs (title : String) (start_dir : Option String)
    (f : Option FilterExpr) : List (String × String) :=
  [("title", title)]
    ++ (match start_dir with
        | some sd => if sd ≠ "" then [("start_dir", sd)] else []
        | none => [])
    ++ (match f with
        | some fe =>
            if fe.truthy then
              [("filter", filter_processor fe kdialog_group_formatters " | ")]
            else []
        | none => [])

/-- The full command line open_file hands Popen. -/
def open_file_cmdlist (title : String) (start_dir : Option String)
    (f : Option FilterExpr) : List String :=
  run_kdialog_cmdlist ["getopenfilename"] (open_file_kwargs title start_dir f)

/-! ## Theorems -/

/-- C1 (counterexample): with the default preference list and neither the
kdialog nor the zenity binary available on a Linux host, file_dialog does not
raise NoImplementationFound; it returns the pygobject backend, because
pygobject is never probed. The same holds for an explicitly empty list. -/
theorem default_preferences_no_binaries_selects_pygobject :
    file_dialog .linux none false false = .ok .pygobject
    ∧ file_dialog .linux none false false ≠ .error .noImplementationFound
    ∧ file_dialog .linux (some []) false false = .ok .pygobject :=
  ⟨rfl, fun h => Except.noConfusion h, rfl⟩

/-- C1 (amended): file_dialog on Linux returns the backend of the first
element of the effective preference list that hits — kdialog and zenity hit
exactly when their binary is available, pygobject and qt always hit — and
raises NoImplementationFound exactly when no element hits. -/
theorem file_dialog_first_hit_characterization
    (pp : Option (List String)) (kav zav : Bool) :
    file_dialog .linux pp kav zav =
      match (effective_preferences pp).find? (picker_hit kav zav) with
      | some p => .ok (backend_of p)
      | none => .error .noImplementationFound := by
  show picker_scan kav zav (effective_preferences pp) = _
  induction effective_preferences pp with
  | nil => rfl
  | cons p rest ih =>
      by_cases hk : p = "kdialog"
      · subst hk
        cases kav with
        | false => exact ih
        | true => rfl
      · by_cases hpb : p = "pygobject"
        · subst hpb; rfl
        · by_cases hq : p = "qt"
          · subst hq; rfl
          · by_cases hz : p = "zenity"
            · subst hz
              cases zav with
              | false => exact ih
              | true => rfl
            · have hbk : (p == "kdialog") = false := beq_eq_false_iff_ne.mpr hk
              have hbp : (p == "pygobject") = false := beq_eq_false_iff_ne.mpr hpb
              have hbq : (p == "qt") = false := beq_eq_false_iff_ne.mpr hq
              have hbz : (p == "zenity") = false := beq_eq_false_iff_ne.mpr hz
              have hhit : picker_hit kav zav p = false := by
                simp [picker_hit, hbk, hbp, hbq, hbz]
              have hfind : List.find? (picker_hit kav zav) (p :: rest)
                  = List.find? (picker_hit kav zav) rest := by
                rw [List.find?_cons, hhit]
              rw [hfind, ← ih]
              simp [picker_scan, hbk, hbp, hbq, hbz]

/-- Auxiliary: the scan skips every prefix none of whose elements hits. -/
theorem picker_scan_append_no_hit (kav zav : Bool) (pre l : List String)
    (h : ∀ p ∈ pre, picker_hit kav zav p = false) :
    picker_scan kav zav (pre ++ l) = picker_scan kav zav l := by
  induction pre with
  | nil => rfl
  | cons p ps ih =>
      have hp : picker_hit kav zav p = false := h p (List.mem_cons_self p ps)
      have hrest : picker_scan kav zav (ps ++ l) = picker_scan kav zav l :=
        ih fun q hq => h q (List.mem_cons_of_mem p hq)
      rw [List.cons_append, ← hrest]
      by_cases hk : p = "kdialog"
      · subst hk
        cases kav with
        | false => rfl
        | true => exact absurd hp (by simp [picker_hit])
      · by_cases hpb : p = "pygobject"
        · exact absurd hp (by subst hpb; simp [picker_hit])
        · by_cases hq : p = "qt"
          · exact absurd hp (by subst hq; simp [picker_hit])
          · by_cases hz : p = "zenity"
            · subst hz
              cases zav with
              | false => rfl
              | true => exact absurd hp (by simp [picker_hit])
            · have hbk : (p == "kdialog") = false := beq_eq_false_iff_ne.mpr hk
              have hbp : (p == "pygobject") = false := beq_eq_false_iff_ne.mpr hpb
              have hbq : (p == "qt") = false := beq_eq_false_iff_ne.mpr hq
              have hbz : (p == "zenity") = false := beq_eq_false_iff_ne.mpr hz
              simp [picker_scan, hbk, hbp, hbq, hbz]

/-- C5: on Linux, whenever "pygobject" or "qt" occurs in the preference list
with no earlier element passing the scan's availability test (in particular,
before any available subprocess backend), file_dialog returns that binding
backend for every value of the kdialog/zenity binary probes: pygobject and qt
are treated as unconditionally available, only kdialog and zenity are probed. -/
theorem binding_backend_selected_without_probe
    (pre post : List String) (b : String) (kav zav : Bool)
    (hb : b = "pygobject" ∨ b = "qt")
    (hpre : ∀ p ∈ pre, picker_hit kav zav p = false) :
    file_dialog .linux (some (pre ++ b :: post)) kav zav = .ok (backend_of b) := by
  have hne : ¬(pre ++ b :: post = []) := by simp
  show picker_scan kav zav (effective_preferences (some (pre ++ b :: post))) = _
  have heff : effective_preferences (some (pre ++ b :: post)) = pre ++ b :: post := by
    simp only [effective_preferences, if_neg hne]
  rw [heff, picker_scan_append_no_hit kav zav pre _ hpre]
  rcases hb with h | h <;> subst h <;> rfl

/-- C5 witness: preference list ["kdialog", "pygobject", "zenity"] with the
kdialog binary absent and the zenity binary present selects pygobject. -/
theorem binding_backend_selected_without_probe_witness :
    file_dialog .linux (some (["kdialog"] ++ "pygobject" :: ["zenity"])) false true
      = .ok (backend_of "pygobject") :=
  binding_backend_selected_without_probe ["kdialog"] ["zenity"] "pygobject"
    false true (Or.inl rfl) (by decide)

/-- C2: open_multiple on captured output "a.txt\nb.txt\n" returns exactly
["a.txt", "b.txt"]; but on empty captured output (user cancelled) it returns
[""], not the empty list: "".split("\n") is [""], so the non-empty guard
always passes and the dead `return []` branch is never reached. -/
theorem open_multiple_parse_two_lines_and_cancel :
    (∀ mem, (open_multiple_call (.exited 0 "a.txt\nb.txt\n" "") mem).1
        = .ok ["a.txt", "b.txt"])
    ∧ ∀ mem, (open_multiple_call (.exited 0 "" "") mem).1 = .ok [""] :=
  ⟨fun _ => rfl, fun _ => rfl⟩

/-- C3: a cancelled open_multiple call (empty captured output) does not leave
the working-directory memory unchanged: it overwrites it with
dirname("") = "", while the other three operations do leave it unchanged on
empty output. -/
theorem cancelled_open_multiple_overwrites_last_cwd :
    (open_multiple_call (.exited 0 "" "") (some "/home/user")).2 = some ""
    ∧ some "" ≠ some "/home/user"
    ∧ (open_file_call (.exited 0 "" "") (some "/home/user")).2 = some "/home/user"
    ∧ (save_file_call (.exited 0 "" "") (some "/home/user")).2 = some "/home/user"
    ∧ (choose_folder_call (.exited 0 "" "") (some "/home/user")).2 = some "/home/user" :=
  ⟨rfl, by decide, rfl, rfl, rfl⟩

/-- C4 (counterexample): a process abnormally terminated by SIGKILL
(returncode -9) does not raise the dialog-execution error: open_file treats it
as success, returns the stripped output and overwrites the working-directory
memory. -/
theorem sigkill_exit_treated_as_success :
    open_file_call (.exited (-9) "/tmp/f" "") (some "/prev") = (.ok "/tmp/f", some "/tmp")
    ∧ some "/tmp" ≠ some "/prev" :=
  ⟨rfl, by decide⟩

/-- C4 (amended): a launch failure propagates the launcher's own OSError
(not KDialogException) and leaves the memory unchanged; a returncode of
exactly -1 raises KDialogException and leaves the memory unchanged; every
other returncode is treated as successful completion. -/
theorem dialog_error_exactly_on_returncode_minus_one
    (mem : Option String) (rc : Int) (out err : String) :
    open_file_call .launchFailure mem = (.error .osError, mem)
    ∧ open_multiple_call .launchFailure mem = (.error .osError, mem)
    ∧ save_file_call .launchFailure mem = (.error .osError, mem)
    ∧ choose_folder_call .launchFailure mem = (.error .osError, mem)
    ∧ (rc = -1 →
        open_file_call (.exited rc out err) mem = (.error .kdialogException, mem)
        ∧ open_multiple_call (.exited rc out err) mem = (.error .kdialogException, mem)
        ∧ save_file_call (.exited rc out err) mem = (.error .kdialogException, mem)
        ∧ choose_folder_call (.exited rc out err) mem = (.error .kdialogException, mem))
    ∧ (rc ≠ -1 →
        (∃ r, (open_file_call (.exited rc out err) mem).1 = .ok r)
        ∧ (∃ rs, (open_multiple_call (.exited rc out err) mem).1 = .ok rs)
        ∧ (∃ r, (save_file_call (.exited rc out err) mem).1 = .ok r)
        ∧ ∃ r, (choose_folder_call (.exited rc out err) mem).1 = .ok r) := by
  refine ⟨rfl, rfl, rfl, rfl, ?_, ?_⟩
  · rintro rfl
    exact ⟨rfl, rfl, rfl, rfl⟩
  · intro hrc
    have hout : run_kdialog_outcome (.exited rc out err) = .ok (pyStrip out) := by
      simp [run_kdialog_outcome, hrc]
    exact ⟨⟨(open_file_step (pyStrip out) mem).1, by simp [open_file_call, hout]⟩,
      ⟨(open_multiple_step (pyStrip out) mem).1, by simp [open_multiple_call, hout]⟩,
      ⟨(save_file_step (pyStrip out) mem).1, by simp [save_file_call, hout]⟩,
      ⟨(choose_folder_step (pyStrip out) mem).1, by simp [choose_folder_call, hout]⟩⟩

/-- C4 witness: at returncode -1 open_file raises KDialogException with the
memory untouched, and at returncode -2 it completes successfully. -/
theorem dialog_error_exactly_on_returncode_minus_one_witness :
    open_file_call (.exited (-1) "x" "") none = (.error .kdialogException, none)
    ∧ ∃ r, (open_file_call (.exited (-2) "y" "") none).1 = .ok r :=
  ⟨((dialog_error_exactly_on_returncode_minus_one none (-1) "x" "").2.2.2.2.1 rfl).1,
   ((dialog_error_exactly_on_returncode_minus_one none (-2) "y" "").2.2.2.2.2
      (by decide)).1⟩

/-- C6: the working directory handed to the launched subprocess is the
FILEDIALOG_CWD value when set and non-empty, else the remembered last
directory when present and non-empty, else none — the subprocess then
inherits the caller's own working directory. -/
theorem subprocess_cwd_precedence (env_cwd last_cwd : Option String) :
    run_kdialog_subprocess_cwd env_cwd last_cwd =
      if env_cwd.getD "" ≠ "" then some (env_cwd.getD "")
      else if last_cwd.getD "" ≠ "" then some (last_cwd.getD "")
      else none := by
  cases env_cwd with
  | none =>
      cases last_cwd with
      | none => rfl
      | some s =>
          by_cases hs : s = "" <;>
            simp [run_kdialog_subprocess_cwd, get_preferred_cwd, hs]
  | some e =>
      by_cases he : e = ""
      · subst he
        cases last_cwd with
        | none => rfl
        | some s =>
            by_cases hs : s = "" <;>
              simp [run_kdialog_subprocess_cwd, get_preferred_cwd, hs]
      · simp [run_kdialog_subprocess_cwd, get_preferred_cwd, he]

/-- C7: whenever one of the four operations updates the working-directory
memory, the new value is some (dirname of the returned path): open_file,
save_file and choose_folder use their single returned path, and open_multiple
uses exactly the first element of the returned list. -/
theorem last_cwd_update_is_dirname_of_returned_path
    (outcome : ProcOutcome) (mem : Option String) :
    ((open_file_call outcome mem).2 = mem ∨
      ∃ r, (open_file_call outcome mem).1 = .ok r
        ∧ (open_file_call outcome mem).2 = some (posixDirname r))
    ∧ ((save_file_call outcome mem).2 = mem ∨
      ∃ r, (save_file_call outcome mem).1 = .ok r
        ∧ (save_file_call outcome mem).2 = some (posixDirname r))
    ∧ ((choose_folder_call outcome mem).2 = mem ∨
      ∃ r, (choose_folder_call outcome mem).1 = .ok r
        ∧ (choose_folder_call outcome mem).2 = some (posixDirname r))
    ∧ ((open_multiple_call outcome mem).2 = mem ∨
      ∃ r rest, (open_multiple_call outcome mem).1 = .ok (r :: rest)
        ∧ (open_multiple_call outcome mem).2 = some (posixDirname r)) := by
  cases hout : run_kdialog_outcome outcome with
  | error e =>
      refine ⟨Or.inl ?_, Or.inl ?_, Or.inl ?_, Or.inl ?_⟩ <;>
        simp [open_file_call, save_file_call, choose_folder_call,
          open_multiple_call, hout]
  | ok res =>
      refine ⟨?_, ?_, ?_, ?_⟩
      · by_cases hres : res = ""
        · exact Or.inl (by simp [open_file_call, hout, open_file_step, hres])
        · exact Or.inr ⟨res,
            by simp [open_file_call, hout, open_file_step, set_last_cwd, hres]⟩
      · by_cases hres : res = ""
        · exact Or.inl (by simp [save_file_call, hout, save_file_step, hres])
        · exact Or.inr ⟨res,
            by simp [save_file_call, hout, save_file_step, set_last_cwd, hres]⟩
      · by_cases hres : res = ""
        · exact Or.inl (by simp [choose_folder_call, hout, choose_folder_step, hres])
        · exact Or.inr ⟨res,
            by simp [choose_folder_call, hout, choose_folder_step, set_last_cwd, hres]⟩
      · cases hl : (pySplitNewline res).map pyStrip with
        | nil =>
            exact Or.inl (by simp [open_multiple_call, hout, open_multiple_step, hl])
        | cons a as =>
            exact Or.inr ⟨a, as,
              by simp [open_multiple_call, hout, open_multiple_step, set_last_cwd, hl]⟩

/-- C8 (counterexample): with no explicit start_dir argument the command line
contains no positional directory at all, whatever the working-directory memory
holds (the cmdlist is built from the call arguments alone; the memory only
seeds the subprocess's working directory): for title "T" it is exactly
["kdialog", "--getopenfilename", "--title", "T"], and a remembered directory
such as "/home/user" never appears in it. -/
theorem last_cwd_not_on_cmdline :
    open_file_cmdlist "T" none none = ["kdialog", "--getopenfilename", "--title", "T"]
    ∧ "/home/user" ∉ open_file_cmdlist "T" none none :=
  ⟨rfl, by decide⟩

/-- C8 (amended): the open_file command line is, in order, the subcommand
flag, then the explicit start_dir argument positionally when it is given and
truthy, then the compiled filter positionally when a filter is given and
truthy, then the remaining named option --title with its value; the
working-directory memory never contributes a positional directory. -/
theorem open_file_cmdlist_order
    (title : String) (start_dir : Option String) (f : Option FilterExpr) :
    open_file_cmdlist title start_dir f =
      ["kdialog", "--getopenfilename"]
      ++ (match start_dir with
          | some sd => if sd ≠ "" then [sd] else []
          | none => [])
      ++ (match f with
          | some fe =>
              if fe.truthy then
                [filter_processor fe kdialog_group_formatters " | "]
              else []
          | none => [])
      ++ ["--title", title] := by
  cases start_dir with
  | none =>
      cases f with
      | none => rfl
      | some fe =>
          by_cases hf : fe.truthy <;>
            simp [open_file_cmdlist, open_file_kwargs, run_kdialog_cmdlist,
              assocPop, hf]
  | some sd =>
      by_cases hs : sd = "" <;> cases f with
      | none =>
          simp [open_file_cmdlist, open_file_kwargs, run_kdialog_cmdlist,
            assocPop, hs]
      | some fe =>
          by_cases hf : fe.truthy <;>
            simp [open_file_cmdlist, open_file_kwargs, run_kdialog_cmdlist,
              assocPop, hs, hf]

/-- C9: with the kdialog parameters — pattern join " ", label template
"{} ({})", separator " | " — the filter compiler maps
the mapping from "Text files" to "*.txt" to "Text files (*.txt)", the mapping
from "Images" to the patterns "*.png" and "*.jpg" to "Images (*.png *.jpg)",
and returns every plain string input unchanged. -/
theorem filter_processor_kdialog_parameters :
    filter_processor (.mapping [("Text files", .single "*.txt")])
        kdialog_group_formatters " | " = "Text files (*.txt)"
    ∧ filter_processor (.mapping [("Images", .many ["*.png", "*.jpg"])])
        kdialog_group_formatters " | " = "Images (*.png *.jpg)"
    ∧ ∀ s, filter_processor (.raw s) kdialog_group_formatters " | " = s :=
  ⟨by decide, by decide, fun _ => rfl⟩

/-- C10: FILEDIALOG_CWD set to the empty string behaves exactly as if unset:
get_preferred_cwd gives the same answer as in the unset case for every
memory value, gives none when the memory is absent or empty, and then no
explicit cwd is passed to the subprocess. -/
theorem empty_env_override_treated_as_unset :
    (∀ last_cwd, get_preferred_cwd (some "") last_cwd
        = get_preferred_cwd none last_cwd)
    ∧ get_preferred_cwd (some "") none = none
    ∧ get_preferred_cwd (some "") (some "") = none
    ∧ run_kdialog_subprocess_cwd (some "") none = none
    ∧ run_kdialog_subprocess_cwd (some "") (some "") = none :=
  ⟨fun _ => rfl, rfl, rfl, rfl, rfl⟩

end CrossFileDialog

